import Mathlib

/-!
Shallow embedding of the core data-collection pipeline of the
github-analysis-agent repository (src/api/github_api.py, src/main.py,
src/utils/data_processor.py), together with theorems settling the frozen
claims about its specification.

Conventions of the embedding:
* Python `while True` loops and the recursive `_make_request` call are
  modelled with an explicit fuel parameter; a result of `none` means the
  computation has not returned within the given fuel (so non-termination
  is `none` at every fuel).
* Python dicts used as JSON objects are modelled either as association
  lists `List (String × String)` (when only string-valued lookups matter)
  or as structures with `Option` fields mirroring the exact `.get`
  defaults of the source.
* Python truthiness of a dict (`if author`) is emptiness of the
  association list; `None` and `{}` are both falsy in Python and behave
  identically in the source lines modelled here, so both map to the
  empty list.

The file is organised as: all definitions first, then all theorems.
-/

namespace GithubAnalysis

/-! # Definitions -/

/-! ## Pagination loop (github_api.py: get_commits lines 44-66,
get_issues lines 68-90)

Both functions run the identical loop:
```
while True:
    params["page"] = page
    data = self._make_request(url, params)
    if not data: break
    commits.extend(data)
    page += 1
    if len(data) < 30: break
```
`pages` abstracts the paginated source: `pages p` is the JSON array the
server answers for `page = p` (pages are 1-indexed, as in the source).
The returned pair is (accumulated items, number of pages requested). -/

def fetchFrom (pages : Nat → List α) : Nat → Nat → Option (List α × Nat)
  | 0, _ => none
  | fuel + 1, p =>
    let data := pages p
    if data.isEmpty then some ([], 1)
    else if data.length < 30 then some (data, 1)
    else
      match fetchFrom pages fuel (p + 1) with
      | none => none
      | some (rest, k) => some (data ++ rest, k + 1)

/-- The function `get_commits` (lines 44-66): run the pagination loop
starting at page 1. -/
def get_commits (pages : Nat → List α) (fuel : Nat) : Option (List α × Nat) :=
  fetchFrom pages fuel 1

/-- The function `get_issues` (lines 68-90): the loop is textually
identical to the one of `get_commits` (only the query parameters of the
underlying request differ, which the page abstraction absorbs). -/
def get_issues (pages : Nat → List α) (fuel : Nat) : Option (List α × Nat) :=
  fetchFrom pages fuel 1

/-- The concatenation, in order, of pages `p, p+1, ..., p+n-1`. -/
def pageConcat (pages : Nat → List α) (p n : Nat) : List α :=
  ((List.range n).map (fun i => pages (p + i))).flatten

/-- Concrete paginated source for the C1 witness: pages 1 and 2 are
full (30 items), page 3 holds a single item. -/
def w1pages : Nat → List Nat := fun p =>
  if p ≤ 2 then List.range 30 else [7]

/-! ## Issue / pull-request classification (github_api.py,
process_repo_data lines 141-142)

```
pull_requests = [pr for pr in issues if 'pull_request' in pr]
issues = [issue for issue in issues if 'pull_request' not in issue]
```
Only the presence of the `'pull_request'` key matters, so a raw item of
the issues endpoint is modelled by an identifier and that marker bit. -/

structure RawIssueItem where
  id : Nat
  has_pull_request : Bool
deriving DecidableEq, Repr

/-- Line 141: items whose raw payload carries the `pull_request` key. -/
def classify_pull_requests (items : List RawIssueItem) : List RawIssueItem :=
  items.filter (fun i => i.has_pull_request)

/-- Line 142: items whose raw payload does not carry the key. -/
def classify_issues (items : List RawIssueItem) : List RawIssueItem :=
  items.filter (fun i => !i.has_pull_request)

/-! ## Payload normalization (github_api.py, process_repo_data
lines 146-185) -/

/-- Python `d.get(k)` on a string-valued dict, modelled as an
association list. -/
def dictGet (d : List (String × String)) (k : String) : Option String :=
  (d.find? (fun q => q.1 == k)).map (fun q => q.2)

/-- Line 153 of github_api.py:
```
author.get('login', 'Unknown') if author else commit_info.get('author', {}).get('name', 'Unknown')
```
where `author = commit.get('author', {})` (line 148) and
`commit_info = commit.get('commit', {})` (line 149). `author` is the
top-level account object and `commitAuthor` the `commit.author`
metadata object; a missing or null object is the empty association
list (`None` and an empty dict are both falsy). -/
def resolve_commit_author (author commitAuthor : List (String × String)) : String :=
  if !author.isEmpty then (dictGet author "login").getD "Unknown"
  else (dictGet commitAuthor "name").getD "Unknown"

/-- Modelled from the spec words of the claim (not from the source, for
comparison only): prefer the platform account login; if the login is
absent, the raw commit-metadata author display name; only if both are
absent, "Unknown". -/
def claimedAuthorRule (author commitAuthor : List (String × String)) : String :=
  match dictGet author "login" with
  | some l => l
  | none =>
    match dictGet commitAuthor "name" with
    | some n => n
    | none => "Unknown"

/-- The amended author-resolution rule: the account login when the
account object is non-empty and carries a login; "Unknown" when the
account object is non-empty but lacks a login, even if a
commit-metadata display name exists; the commit-metadata display name,
defaulting to "Unknown", only when the account object is absent, null
or empty. -/
def amendedAuthorRule (author commitAuthor : List (String × String)) : String :=
  if author.isEmpty then
    match dictGet commitAuthor "name" with
    | some n => n
    | none => "Unknown"
  else
    match dictGet author "login" with
    | some l => l
    | none => "Unknown"

/-- Lines 169 and 183 of github_api.py:
`[label.get('name', '') for label in issue.get('labels', [])]` — each
raw label entry is an association list. -/
def normalize_labels (labels : List (List (String × String))) : List String :=
  labels.map (fun l => (dictGet l "name").getD "")

/-- Raw issues-endpoint record, with exactly the fields read by
lines 160-171 / 174-185; `none` is a missing key. -/
structure RawIssue where
  number : Option Int
  title : Option String
  state : Option String
  created_at : Option String
  updated_at : Option String
  user : List (String × String)
  labels : List (List (String × String))
  html_url : Option String
deriving DecidableEq, Repr

/-- The value of the normalized `number` field: the identifying integer
when the raw payload has one, else the `''` default of
`issue.get('number', '')`. -/
inductive NumberField where
  | num (v : Int)
  | emptyString
deriving DecidableEq, Repr

/-- A normalized issue (or pull-request) record, lines 162-171. -/
structure IssueRecord where
  number : NumberField
  title : String
  state : String
  created_at : String
  updated_at : String
  author : String
  labels : List String
  url : String
deriving DecidableEq, Repr

/-- Lines 160-171 (and identically 174-185 for pull requests):
normalization of one issues-endpoint record. Every field is read with
`.get` and a default, so the function is total — no exception can be
raised on this path. -/
def process_issue (issue : RawIssue) : IssueRecord :=
  { number := match issue.number with | some v => .num v | none => .emptyString
  , title := issue.title.getD ""
  , state := issue.state.getD ""
  , created_at := issue.created_at.getD ""
  , updated_at := issue.updated_at.getD ""
  , author := (dictGet issue.user "login").getD "Unknown"
  , labels := normalize_labels issue.labels
  , url := issue.html_url.getD "" }

/-- Concrete raw issue with no identifying number, for C8. -/
def rawIssueNoNumber : RawIssue :=
  { number := none
  , title := some "crash on start"
  , state := some "open"
  , created_at := some "2024-01-01T10:00:00Z"
  , updated_at := none
  , user := [("login", "alice")]
  , labels := []
  , html_url := none }

/-! ## Rate-limited request (github_api.py, _make_request lines 21-42)

```
if self.rate_limit_remaining < 10: time.sleep(60)
response = requests.get(url, headers=self.headers, params=params)
self.rate_limit_remaining = int(response.headers.get('X-RateLimit-Remaining', 5000))
if response.status_code == 200: return response.json()
elif response.status_code == 403 and 'rate limit' in ...message...:
    reset_time = int(response.headers.get('X-RateLimit-Reset', 0))
    sleep_time = max(reset_time - time.time(), 0) + 10
    time.sleep(sleep_time)
    return self._make_request(url, params)
else: response.raise_for_status()
```
-/

/-- A server response as `_make_request` distinguishes them: a 200 with
a JSON body, a 403 whose body message mentions the rate limit (with its
`X-RateLimit-Reset` header value), or any other error status. Each
response carries the `X-RateLimit-Remaining` header value (line 30,
default 5000). -/
inductive HttpResponse where
  | ok (remaining : Nat) (body : String)
  | rateLimited (remaining : Nat) (reset : Int)
  | otherError (remaining : Nat) (status : Nat)
deriving DecidableEq, Repr

/-- Client state threaded through `_make_request`: the remaining-budget
counter (`self.rate_limit_remaining`, initially 5000), the wall clock,
the index of the next server response, and the total seconds slept so
far. -/
structure ClientState where
  rate_limit_remaining : Nat
  now : Int
  idx : Nat
  slept : Int
deriving DecidableEq, Repr

/-- Fresh client state at wall-clock time `now` (line 19:
`self.rate_limit_remaining = 5000`). -/
def initState (now : Int) : ClientState :=
  { rate_limit_remaining := 5000, now := now, idx := 0, slept := 0 }

/-- The function `_make_request` over an abstract sequence of server
responses, with fuel bounding the recursion depth: `none` means the
recursion has not returned within the fuel. The result is
`Except.ok body` on a 200 and `Except.error status` for
`raise_for_status` on any other non-rate-limited status. Sleeping is
modelled by advancing `now` and recording the duration in `slept`. -/
def make_request (responses : Nat → HttpResponse) :
    Nat → ClientState → Option (Except Nat String × ClientState)
  | 0, _ => none
  | fuel + 1, s0 =>
    let s := if s0.rate_limit_remaining < 10 then
        { s0 with now := s0.now + 60, slept := s0.slept + 60 }
      else s0
    match responses s.idx with
    | .ok rem body =>
        some (.ok body, { s with rate_limit_remaining := rem, idx := s.idx + 1 })
    | .rateLimited rem reset =>
        let sleep_time := max (reset - s.now) 0 + 10
        make_request responses fuel
          { rate_limit_remaining := rem
          , now := s.now + sleep_time
          , idx := s.idx + 1
          , slept := s.slept + sleep_time }
    | .otherError rem status =>
        some (.error status, { s with rate_limit_remaining := rem, idx := s.idx + 1 })

/-- A misbehaving server that answers 403-rate-limited forever. -/
def always403 : Nat → HttpResponse := fun _ => .rateLimited 5000 0

/-- Response sequence for C6: first a 403 rate-limited answer with the
given reset epoch, then a 200 with the given body. -/
def rlThenOk (reset : Int) (body : String) : Nat → HttpResponse := fun i =>
  if i = 0 then .rateLimited 5000 reset else .ok 5000 body

/-! ## Batch collection (main.py, collect_github_data lines 43-63) -/

/-- Lines 50-61 of main.py: per repository, try `process_repo_data`
(all-or-nothing: github_api.py lines 215-217 re-raise any sub-fetch
failure, so no partial snapshot escapes), save the snapshot to disk,
and append it to the batch; on exception, log it and continue with the
next repository. `fetch` abstracts the per-repository outcome; the
result pair is (snapshots saved to disk, the returned `all_repo_data`
batch). -/
def collect_github_data (fetch : String → Except String α) :
    List String → List α × List α
  | [] => ([], [])
  | repo :: repos =>
    match fetch repo with
    | .ok data =>
      let rest := collect_github_data fetch repos
      (data :: rest.1, data :: rest.2)
    | .error _ => collect_github_data fetch repos

/-! ## Releases fetch (github_api.py, get_releases lines 99-126) -/

/-- Decimal value of two digit characters, `none` if either is not a
digit. -/
def twoDigits (c1 c2 : Char) : Option Nat :=
  if c1.isDigit ∧ c2.isDigit then
    some ((c1.toNat - 48) * 10 + (c2.toNat - 48))
  else none

/-- Parse a timestamp under the strptime format `%Y-%m-%dT%H:%M:%SZ`
(line 117): four-digit year, two-digit zero-padded fields with
calendar-range checks (seconds up to 61 as strptime allows leap
seconds); on success the timestamp is encoded as one sortable natural
number. `none` is a `ValueError`. -/
def parse_published_at (s : String) : Option Nat :=
  match s.toList with
  | [y1, y2, y3, y4, p1, mo1, mo2, p2, d1, d2, tc, h1, h2, c1, mi1, mi2, c2, e1, e2, zc] =>
    if p1 = '-' ∧ p2 = '-' ∧ tc = 'T' ∧ c1 = ':' ∧ c2 = ':' ∧ zc = 'Z' then
      match twoDigits y1 y2, twoDigits y3 y4, twoDigits mo1 mo2, twoDigits d1 d2,
            twoDigits h1 h2, twoDigits mi1 mi2, twoDigits e1 e2 with
      | some yhi, some ylo, some mo, some d, some h, some mi, some se =>
        if 1 ≤ mo ∧ mo ≤ 12 ∧ 1 ≤ d ∧ d ≤ 31 ∧ h ≤ 23 ∧ mi ≤ 59 ∧ se ≤ 61 then
          some ((((((yhi * 100 + ylo) * 13 + mo) * 32 + d) * 24 + h) * 60 + mi) * 62 + se)
        else none
      | _, _, _, _, _, _, _ => none
    else none
  | _ => none

/-- Raw release record with the only field the date filter reads;
`none` models a missing key or a JSON null (a draft release has
`published_at = null`). -/
structure RawRelease where
  id : Nat
  published_at : Option String
deriving DecidableEq, Repr

/-- Line 117: `datetime.strptime(release['published_at'], fmt) > since_date`.
A missing or null field raises (`KeyError` / `TypeError` — there is no
`.get` default here) and a malformed string raises `ValueError`. -/
def released_after (since : Nat) (r : RawRelease) : Except String Bool :=
  match r.published_at with
  | none => .error "TypeError"
  | some s =>
    match parse_published_at s with
    | none => .error "ValueError"
    | some t => .ok (decide (t > since))

/-- The list comprehension of lines 115-118, evaluated left to right,
raising at the first release whose `published_at` is absent or
malformed. -/
def filter_recent (since : Nat) : List RawRelease → Except String (List RawRelease)
  | [] => .ok []
  | r :: rs =>
    match released_after since r with
    | .error e => .error e
    | .ok keep =>
      match filter_recent since rs with
      | .error e => .error e
      | .ok rest => .ok (if keep then r :: rest else rest)

/-- The pagination loop of `get_releases` from page `p` with fuel:
pages are client-filtered by date; the loop stops on an empty page, a
short page, or a page whose filtered count shrank (line 123); an
exception while filtering aborts the whole fetch. `none` means the
loop has not returned within the fuel. -/
def get_releases_from (pages : Nat → List RawRelease) (since : Nat) :
    Nat → Nat → Option (Except String (List RawRelease))
  | 0, _ => none
  | fuel + 1, p =>
    let data := pages p
    if data.isEmpty then some (.ok [])
    else
      match filter_recent since data with
      | .error e => some (.error e)
      | .ok recent =>
        if data.length < 30 ∨ recent.length < data.length then some (.ok recent)
        else
          match get_releases_from pages since fuel (p + 1) with
          | none => none
          | some (.error e) => some (.error e)
          | some (.ok rest) => some (.ok (recent ++ rest))

/-- The function `get_releases`: run the loop from page 1. -/
def get_releases (pages : Nat → List RawRelease) (since : Nat) (fuel : Nat) :
    Option (Except String (List RawRelease)) :=
  get_releases_from pages since fuel 1

/-- A release whose `published_at` is absent (null) or does not parse
under the `%Y-%m-%dT%H:%M:%SZ` format. -/
def badPublishedAt (r : RawRelease) : Bool :=
  match r.published_at with
  | none => true
  | some s => (parse_published_at s).isNone

/-- Concrete draft release (null `published_at`) for the C10 witness. -/
def draftRelease : RawRelease := { id := 1, published_at := none }

/-! # Theorems -/

theorem pageConcat_zero (pages : Nat → List α) (p : Nat) :
    pageConcat pages p 0 = [] := rfl

theorem pageConcat_succ (pages : Nat → List α) (p n : Nat) :
    pageConcat pages p (n + 1) = pages p ++ pageConcat pages (p + 1) n := by
  unfold pageConcat
  rw [List.range_succ_eq_map]
  simp only [List.map_cons, List.map_map, List.flatten_cons, Nat.add_zero]
  have h : ((fun i => pages (p + i)) ∘ Nat.succ) = fun i => pages (p + 1 + i) := by
    funext i
    simp only [Function.comp_apply, Nat.succ_eq_add_one]
    congr 1
    omega
  rw [h]

theorem fetchFrom_spec (pages : Nat → List α) :
    ∀ N p fuel, (∀ i, p ≤ i → i < p + N → (pages i).length = 30) →
    (pages (p + N)).length < 30 → N + 1 ≤ fuel →
    fetchFrom pages fuel p = some (pageConcat pages p (N + 1), N + 1) := by
  intro N
  induction N with
  | zero =>
    intro p fuel _ hshort hfuel
    obtain ⟨f, rfl⟩ : ∃ f, fuel = f + 1 := ⟨fuel - 1, by omega⟩
    simp only [Nat.add_zero] at hshort
    rw [fetchFrom, pageConcat_succ, pageConcat_zero, List.append_nil]
    by_cases he : (pages p) = []
    · simp [he]
    · simp [List.isEmpty_iff, he, hshort]
  | succ N ih =>
    intro p fuel hfull hshort hfuel
    obtain ⟨f, rfl⟩ : ∃ f, fuel = f + 1 := ⟨fuel - 1, by omega⟩
    have hp : (pages p).length = 30 := hfull p (le_refl p) (by omega)
    have hne : ¬ (pages p).isEmpty = true := by
      rw [List.isEmpty_iff_length_eq_zero]
      omega
    have hshort2 : (pages (p + 1 + N)).length < 30 := by
      have he : p + 1 + N = p + (N + 1) := by omega
      rw [he]
      exact hshort
    have hfull2 : ∀ i, p + 1 ≤ i → i < p + 1 + N → (pages i).length = 30 :=
      fun i h1 h2 => hfull i (by omega) (by omega)
    have hrec : fetchFrom pages f (p + 1) =
        some (pageConcat pages (p + 1) (N + 1), N + 1) :=
      ih (p + 1) f hfull2 hshort2 (by omega)
    rw [fetchFrom]
    simp only [hne, if_false, hp, Bool.false_eq_true]
    rw [if_neg (by omega)]
    rw [hrec]
    simp [pageConcat_succ]

/-- C1: for a paginated source whose pages 1..N all have exactly 30
items and whose page N+1 is the first short page (< 30 items), the
fetch loop of `get_commits` / `get_issues` terminates having requested
exactly pages 1..N+1 and returns the concatenation, in order, of the
items of every page requested. -/
theorem C1_pagination_terminates_and_concats (pages : Nat → List α)
    (N fuel : Nat)
    (hfull : ∀ i, 1 ≤ i → i < 1 + N → (pages i).length = 30)
    (hshort : (pages (1 + N)).length < 30)
    (hfuel : N + 1 ≤ fuel) :
    get_commits pages fuel = some (pageConcat pages 1 (N + 1), N + 1) ∧
    get_issues pages fuel = some (pageConcat pages 1 (N + 1), N + 1) :=
  ⟨fetchFrom_spec pages N 1 fuel hfull hshort hfuel,
   fetchFrom_spec pages N 1 fuel hfull hshort hfuel⟩

/-- Witness for C1 at a concrete source: two full pages then a short
one; both loops request 3 pages and return their concatenation. -/
theorem C1_pagination_witness :
    get_commits w1pages 3 = some (pageConcat w1pages 1 3, 3) ∧
    get_issues w1pages 3 = some (pageConcat w1pages 1 3, 3) :=
  C1_pagination_terminates_and_concats w1pages 2 3
    (by decide) (by decide) (by decide)

theorem classify_length (items : List RawIssueItem) :
    (classify_pull_requests items).length + (classify_issues items).length
      = items.length := by
  unfold classify_pull_requests classify_issues
  induction items with
  | nil => rfl
  | cons x xs ih =>
    by_cases h : x.has_pull_request
    · simp [List.filter_cons, h]
      omega
    · simp [List.filter_cons, h]
      omega

/-- C2: the classification of the raw issues-endpoint items is a
partition: every fetched item lands in exactly one of the issues or the
pull-requests collection (it is a pull request iff its raw payload
carries the `pull_request` marker key), no item is in both, and the two
collection sizes sum to the raw item count. -/
theorem C2_partition (items : List RawIssueItem) :
    (classify_pull_requests items).length + (classify_issues items).length
        = items.length ∧
    (∀ x ∈ items, (x ∈ classify_pull_requests items ↔ x.has_pull_request)
        ∧ (x ∈ classify_issues items ↔ ¬ x.has_pull_request)) ∧
    (∀ x, ¬ (x ∈ classify_pull_requests items ∧ x ∈ classify_issues items)) := by
  refine ⟨classify_length items, ?_, ?_⟩
  · intro x hx
    constructor
    · simp [classify_pull_requests, List.mem_filter, hx]
    · simp [classify_issues, List.mem_filter, hx]
  · intro x ⟨h1, h2⟩
    simp [classify_pull_requests, List.mem_filter] at h1
    simp [classify_issues, List.mem_filter] at h2
    rw [h2.2] at h1
    simp at h1

/-- Witness for C2 at a concrete item list (one pull request, one plain
issue): the partition facts evaluated concretely. -/
theorem C2_partition_witness :
    (classify_pull_requests [⟨1, true⟩, ⟨2, false⟩]).length
        + (classify_issues [⟨1, true⟩, ⟨2, false⟩]).length
        = ([⟨1, true⟩, ⟨2, false⟩] : List RawIssueItem).length ∧
    (∀ x ∈ ([⟨1, true⟩, ⟨2, false⟩] : List RawIssueItem),
      (x ∈ classify_pull_requests [⟨1, true⟩, ⟨2, false⟩] ↔ x.has_pull_request)
        ∧ (x ∈ classify_issues [⟨1, true⟩, ⟨2, false⟩] ↔ ¬ x.has_pull_request)) ∧
    (∀ x, ¬ (x ∈ classify_pull_requests [⟨1, true⟩, ⟨2, false⟩]
        ∧ x ∈ classify_issues [⟨1, true⟩, ⟨2, false⟩])) :=
  C2_partition [⟨1, true⟩, ⟨2, false⟩]

theorem make_request_always403 (fuel : Nat) :
    ∀ s, make_request always403 fuel s = none := by
  induction fuel with
  | zero => intro s; rfl
  | succ f ih =>
    intro s
    rw [make_request]
    by_cases h : s.rate_limit_remaining < 10 <;> simp [always403, h, ih]

/-- C3 counterexample: no fixed retry cap exists: for the server that
answers 403-rate-limited forever, no recursion-depth bound C + 1 makes
the request function return, so its retries are not capped by any
constant — the recursive call on line 39 is unconditional. -/
theorem C3_retry_cap_counterexample :
    ¬ ∃ C : Nat, (make_request always403 (C + 1) (initState 0)).isSome = true := by
  rintro ⟨C, h⟩
  rw [make_request_always403 (C + 1) (initState 0)] at h
  simp at h

/-- C3 (amended): the 403 rate-limit retry is an unconditional
recursion with no retry cap: against a server answering 403-rate-limited
forever, `_make_request` retries at every recursion depth and never
returns within any fuel bound. -/
theorem C3_retry_unbounded (fuel : Nat) (s : ClientState) :
    make_request always403 fuel s = none :=
  make_request_always403 fuel s

/-- C4 counterexample: for a raw commit whose account object is
non-empty but has no login key while the commit-metadata display name
is "Alice", the login is absent and the display name present, yet the
code resolves the author to "Unknown", not to "Alice" as the claimed
fallback order requires. -/
theorem C4_author_counterexample :
    dictGet [("id", "1")] "login" = none ∧
    dictGet [("name", "Alice")] "name" = some "Alice" ∧
    resolve_commit_author [("id", "1")] [("name", "Alice")] = "Unknown" ∧
    claimedAuthorRule [("id", "1")] [("name", "Alice")] = "Alice" := by
  refine ⟨rfl, rfl, rfl, rfl⟩

/-- C4 (amended): the normalized commit author is the account login
when the account object is non-empty and carries one; it is "Unknown"
when the account object is non-empty but lacks a login, even if a
commit-metadata display name exists; the commit-metadata display name
(defaulting to "Unknown") is used only when the account object is
absent, null or empty. -/
theorem C4_author_amended (author commitAuthor : List (String × String)) :
    resolve_commit_author author commitAuthor
      = amendedAuthorRule author commitAuthor := by
  unfold resolve_commit_author amendedAuthorRule
  by_cases h : author.isEmpty
  · simp only [h, Bool.not_true, Bool.false_eq_true, if_false, if_true]
    cases dictGet commitAuthor "name" <;> rfl
  · simp only [h, Bool.not_false, Bool.false_eq_true, if_true, if_false]
    cases dictGet author "login" <;> rfl

/-- C6: on a 403 rate-limited response carrying reset epoch `reset`,
the client sleeps exactly `max (reset - now) 0 + 10` seconds (reset
minus now, floored at zero, plus the 10-second grace) and then retries
the same request; the retried request's 200 body is returned. In
particular, for `reset = now + 5` the sleep is 15 = 5 + 10 seconds. -/
theorem C6_backoff_sleep (now reset : Int) (body : String) :
    make_request (rlThenOk reset body) 2 (initState now)
      = some (.ok body,
          { rate_limit_remaining := 5000
          , now := now + (max (reset - now) 0 + 10)
          , idx := 2
          , slept := max (reset - now) 0 + 10 }) ∧
    max ((now + 5) - now) 0 + 10 = 15 := by
  constructor
  · simp [make_request, rlThenOk, initState]
  · omega

/-- C7 counterexample: the raw label list with a nameless entry and a
duplicated name normalizes to a list that keeps an empty-string
placeholder for the nameless entry (it is not dropped) and repeats
"bug" — not a set of names with nameless entries dropped. -/
theorem C7_labels_counterexample :
    normalize_labels [[("color", "red")], [("name", "bug")], [("name", "bug")]]
        = ["", "bug", "bug"] ∧
    "" ∈ normalize_labels [[("color", "red")], [("name", "bug")], [("name", "bug")]] ∧
    ¬ (normalize_labels [[("color", "red")], [("name", "bug")], [("name", "bug")]]).Nodup := by
  refine ⟨rfl, ?_, ?_⟩ <;> decide

/-- C7 (amended): labels are normalized to a list, not a set: no raw
label entry is dropped (the output length equals the raw label count)
and every raw entry contributes its name or, when it lacks one, the
empty-string placeholder of `.get('name', '')`; duplicates are kept, as
the counterexample shows. -/
theorem C7_labels_amended (labels : List (List (String × String)))
    (l : List (String × String)) (hl : l ∈ labels) :
    (normalize_labels labels).length = labels.length ∧
    ((dictGet l "name").getD "") ∈ normalize_labels labels := by
  constructor
  · simp [normalize_labels]
  · unfold normalize_labels
    exact List.mem_map_of_mem _ hl

/-- Witness for C7 (amended) at a one-label list. -/
theorem C7_labels_amended_witness :
    (normalize_labels [[("name", "bug")]]).length
        = ([[("name", "bug")]] : List (List (String × String))).length ∧
    ((dictGet [("name", "bug")] "name").getD "")
        ∈ normalize_labels [[("name", "bug")]] :=
  C7_labels_amended [[("name", "bug")]] [("name", "bug")] (by decide)

/-- C8 counterexample: normalizing a concrete issue record that is
missing its identifying number does not raise: it produces a full
normalized record whose number is the empty-string default of
`issue.get('number', '')`. -/
theorem C8_missing_number_counterexample :
    process_issue rawIssueNoNumber
      = { number := NumberField.emptyString
        , title := "crash on start"
        , state := "open"
        , created_at := "2024-01-01T10:00:00Z"
        , updated_at := ""
        , author := "alice"
        , labels := []
        , url := "" } := by
  rfl

/-- C8 (amended): normalization of an issue record never fails and
never drops the record: `process_issue` is total, and the normalized
number is the empty-string default exactly when the raw number is
missing, and the raw integer exactly when it is present. -/
theorem C8_missing_number_amended (issue : RawIssue) :
    ((process_issue issue).number = NumberField.emptyString
        ↔ issue.number = none) ∧
    (∀ v, (process_issue issue).number = NumberField.num v
        ↔ issue.number = some v) := by
  cases h : issue.number <;> simp [process_issue, h]

/-- Witness for C8 (amended) at the concrete number-less issue. -/
theorem C8_missing_number_amended_witness :
    ((process_issue rawIssueNoNumber).number = NumberField.emptyString
        ↔ rawIssueNoNumber.number = none) ∧
    (∀ v, (process_issue rawIssueNoNumber).number = NumberField.num v
        ↔ rawIssueNoNumber.number = some v) :=
  C8_missing_number_amended rawIssueNoNumber

/-- C9: batch collection is partial-failure tolerant at repository
granularity: a repository whose fetch fails contributes nothing
(nothing saved, nothing in the batch), collection continues with the
following repositories, and both the persisted snapshots and the batch
result are exactly the snapshots of the repositories whose fetch fully
succeeded, in order. -/
theorem C9_batch_partial_failure (fetch : String → Except String α)
    (repos : List String) :
    collect_github_data fetch repos
      = (repos.filterMap (fun r => (fetch r).toOption),
         repos.filterMap (fun r => (fetch r).toOption)) := by
  induction repos with
  | nil => rfl
  | cons r rs ih =>
    cases h : fetch r <;>
      simp [collect_github_data, h, ih, Except.toOption, List.filterMap_cons]

theorem filter_recent_error (since : Nat) :
    ∀ data : List RawRelease, (∃ r ∈ data, badPublishedAt r) →
    ∃ e, filter_recent since data = .error e := by
  intro data
  induction data with
  | nil =>
    rintro ⟨r, hr, _⟩
    cases hr
  | cons x xs ih =>
    rintro ⟨r, hr, hbad⟩
    rcases List.mem_cons.mp hr with h | h
    · subst h
      have herr : ∃ e, released_after since r = .error e := by
        unfold badPublishedAt at hbad
        unfold released_after
        cases hx : r.published_at with
        | none => exact ⟨"TypeError", rfl⟩
        | some s =>
          rw [hx] at hbad
          simp at hbad
          exact ⟨"ValueError", by simp [hbad]⟩
      obtain ⟨e, he⟩ := herr
      exact ⟨e, by unfold filter_recent; rw [he]⟩
    · obtain ⟨e, he⟩ := ih ⟨r, h, hbad⟩
      cases hx : released_after since x with
      | error e2 => exact ⟨e2, by unfold filter_recent; rw [hx]⟩
      | ok keep => exact ⟨e, by unfold filter_recent; rw [hx, he]⟩

/-- C10: whenever the releases pagination loop processes a response
page containing a release whose `published_at` is absent (a draft
release's null) or not formatted as `%Y-%m-%dT%H:%M:%SZ`, the fetch
raises the corresponding exception instead of filtering or skipping
that release, so the whole releases fetch (and with it the enclosing
repository fetch, which re-raises) aborts. -/
theorem C10_releases_bad_published_at (pages : Nat → List RawRelease)
    (since fuel p : Nat) (hfuel : 1 ≤ fuel)
    (hbad : ∃ r ∈ pages p, badPublishedAt r) :
    ∃ e, get_releases_from pages since fuel p = some (.error e) := by
  obtain ⟨f, rfl⟩ : ∃ f, fuel = f + 1 := ⟨fuel - 1, by omega⟩
  obtain ⟨e, he⟩ := filter_recent_error since (pages p) hbad
  have hne : ¬ (pages p).isEmpty = true := by
    obtain ⟨r, hr, _⟩ := hbad
    rw [List.isEmpty_iff]
    intro h
    rw [h] at hr
    cases hr
  refine ⟨e, ?_⟩
  rw [get_releases_from]
  simp [hne, he]

/-- Witness for C10: a page holding one draft release (null
`published_at`) makes the releases fetch abort with an error. -/
theorem C10_releases_witness :
    ∃ e, get_releases_from (fun _ => [draftRelease]) 0 1 1
      = some (.error e) :=
  C10_releases_bad_published_at (fun _ => [draftRelease]) 0 1 1
    (by decide) (by decide)

end GithubAnalysis
